import Mathlib

/-!
Verification of the conversation-persistence and response-normalization core
of a Flet chat client (`src/main.py`).

The embedding has three layers, each translated directly from the source:

* the JSON store (`load_conversations` / `save_conversations`), modelled over
  a JSON value type `JVal`; Python `None` is identified with JSON `null`;
* the response normalizer (`extract_response_content`), modelled over a type
  `PyVal` of provider-response shapes; Python exceptions are `Option.none`;
* the send orchestration (`stream_response` / `on_send_click`), with the
  `g4f.ChatCompletion.create` collaborator abstracted as a `Provider` record
  giving the outcome of the streaming call and of the non-streaming call.
-/

namespace ChatApp

/-- JSON values, as produced by Python's `json.load`.  Python `None` and JSON
`null` are both represented by `JVal.null` (they are the same object after
`json.load`, and `dict.get` returns `None` for an absent key). -/
inductive JVal where
  | null : JVal
  | bool (b : Bool) : JVal
  | num (n : Int) : JVal
  | str (s : String) : JVal
  | arr (xs : List JVal) : JVal
  | obj (fields : List (String × JVal)) : JVal

/-- Dataclass `Message` of `src/main.py` (lines 14-17).  In the running
program the fields are strings, but `load_conversations` builds a `Message`
from whatever JSON values are stored under its keys, so the fields are
modelled as `JVal`. -/
structure Message where
  role : JVal
  content : JVal

/-- Dataclass `Conversation` of `src/main.py` (lines 19-23).  `id` and
`title` hold whatever `c.get("id")` / `c.get("title")` returned, hence
`JVal` (with `JVal.null` for Python `None`). -/
structure Conversation where
  id : JVal
  title : JVal
  messages : List Message

/-- Python `dict.get key` on a JSON object: the stored value, or `none` when
the key is absent. -/
def getJ : List (String × JVal) → String → Option JVal
  | [], _ => none
  | (k, v) :: rest, key => if k = key then some v else getJ rest key

/-- Whether `Message(**m)` succeeds for a dict with these fields: both
`role` and `content` present, and no unexpected extra key (a dataclass
constructor raises `TypeError` otherwise). -/
def msgKeysOk (mf : List (String × JVal)) : Bool :=
  (getJ mf "role").isSome && (getJ mf "content").isSome &&
    mf.all fun kv => kv.fst == "role" || kv.fst == "content"

/-- Evaluation of `Message(**m)` on one element of the `messages` list:
`some` when `m` is a JSON object with exactly the keys `role` and `content`,
`none` (a raised `TypeError` / `AttributeError`) otherwise. -/
def decodeMessage : JVal → Option Message
  | .obj mf =>
      if msgKeysOk mf then
        match getJ mf "role", getJ mf "content" with
        | some r, some c => some ⟨r, c⟩
        | _, _ => none
      else none
  | _ => none

/-- The list comprehension `[Message(**m) for m in ...]`: left to right, the
first raising element aborts the whole comprehension (`none`). -/
def decodeMessages : List JVal → Option (List Message)
  | [] => some []
  | m :: rest =>
      match decodeMessage m with
      | some msg => (decodeMessages rest).map (msg :: ·)
      | none => none

/-- Evaluation of the loop body of `load_conversations` on one element `c` of
the parsed document:
`Conversation(id=c.get("id"), title=c.get("title"),
messages=[Message(**m) for m in c.get("messages", [])])`.
Absent `id` / `title` keys default to Python `None` (`JVal.null`); an absent
`messages` key defaults to `[]`.  Iterating a non-list `messages` value
raises unless the value is empty-iterable (an empty string or empty dict,
whose iteration yields nothing); a non-dict `c` raises at `c.get`. -/
def decodeConversation : JVal → Option Conversation
  | .obj cf =>
      match (getJ cf "messages").getD (.arr []) with
      | .arr ms =>
          match decodeMessages ms with
          | some msgs => some ⟨(getJ cf "id").getD .null, (getJ cf "title").getD .null, msgs⟩
          | none => none
      | .str "" => some ⟨(getJ cf "id").getD .null, (getJ cf "title").getD .null, []⟩
      | .obj [] => some ⟨(getJ cf "id").getD .null, (getJ cf "title").getD .null, []⟩
      | _ => none
  | _ => none

/-- The `for c in data` loop of `load_conversations`: left to right, any
raised exception aborts the whole load. -/
def decodeConversationList : List JVal → Option (List Conversation)
  | [] => some []
  | c :: rest =>
      match decodeConversation c with
      | some conv => (decodeConversationList rest).map (conv :: ·)
      | none => none

/-- Processing of the whole parsed JSON document by `load_conversations`.
A JSON array is decoded record by record; iterating a non-empty dict yields
its keys (strings) and iterating a non-empty string yields characters, and
`c.get` then raises `AttributeError`; an empty dict or empty string iterates
to nothing and yields an empty conversation list; any non-iterable document
raises `TypeError`. -/
def decodeConversations : JVal → Option (List Conversation)
  | .arr cs => decodeConversationList cs
  | .obj [] => some []
  | .str "" => some []
  | _ => none

/-- The state of the data file as seen by `load_conversations`:
absent, present but unreadable (I/O fault on `open`/`read`), present but not
valid JSON, or parsed to a JSON document. -/
inductive FileState where
  | missing : FileState
  | ioError : FileState
  | unparseable : FileState
  | parsed (j : JVal) : FileState

/-- Function `load_conversations` of `src/main.py` (lines 27-45).  Returns
the loaded list together with a flag recording whether the `except` branch
ran (it prints `Error loading conversations: ...`).  A missing file returns
`[]` before the `try` block, with no report; an I/O fault, a JSON parse
failure, or any exception while rebuilding the records is caught, reported,
and yields `[]`. -/
def load_conversations : FileState → List Conversation × Bool
  | .missing => ([], false)
  | .ioError => ([], true)
  | .unparseable => ([], true)
  | .parsed j =>
      match decodeConversations j with
      | some cs => (cs, false)
      | none => ([], true)

/-- Serialization of one `Message` by `save_conversations` (`asdict(m)`). -/
def encodeMessage (m : Message) : JVal :=
  .obj [("role", m.role), ("content", m.content)]

/-- Serialization of one `Conversation` by `save_conversations`:
`{"id": c.id, "title": c.title, "messages": [asdict(m) for m in c.messages]}`. -/
def encodeConversation (c : Conversation) : JVal :=
  .obj [("id", c.id), ("title", c.title), ("messages", .arr (c.messages.map encodeMessage))]

/-- Function `save_conversations` of `src/main.py` (lines 47-55), modelled as
the JSON document that `json.dump` writes to the data file. -/
def save_conversations (cs : List Conversation) : JVal :=
  .arr (cs.map encodeConversation)

/-- Startup logic of `main` (`src/main.py` lines 79-81): load, and if the
result is empty create a single fresh conversation
`Conversation(id=str(uuid.uuid4()), title="New Chat", messages=[])`. -/
def startupConversations (fs : FileState) (freshId : String) : List Conversation :=
  let cs := (load_conversations fs).1
  if cs.isEmpty then [⟨.str freshId, .str "New Chat", []⟩] else cs

/-- Observable contents of the data file at each step of `save_conversations`
when the previous content is `old` and the serialized new document text is
`doc`: `open(DATA_FILE, "w")` first truncates the file in place, then
`json.dump` writes the document, so an interruption between the two steps
leaves an empty file. -/
def saveWriteTrace (old doc : String) : List String :=
  [old, "", doc]

/-- Shapes a `g4f` response value (or stream chunk) can take, as the code
distinguishes them: a plain string; an object with a `content` attribute
(`obj content rep`, where `rep` is what `str()` of the object prints); an
iterable of chunks; an iterable that raises partway through iteration, after
yielding `chunks`; an object whose `content` attribute access itself raises
(so `hasattr` propagates the exception); anything else (`rep` again being
its `str()` text). -/
inductive PyVal where
  | str (s : String) : PyVal
  | obj (content : PyVal) (rep : String) : PyVal
  | iterable (chunks : List PyVal) (rep : String) : PyVal
  | raisingIter (chunks : List PyVal) (rep : String) : PyVal
  | badAttr (rep : String) : PyVal
  | other (rep : String) : PyVal

/-- Python `str()` of a response value: a string is itself; every other
shape carries the text its `str()` produces. -/
def PyVal.pyStr : PyVal → String
  | .str s => s
  | .obj _ r => r
  | .iterable _ r => r
  | .raisingIter _ r => r
  | .badAttr r => r
  | .other r => r

/-- One iteration of the chunk loop inside `extract_response_content`
(lines 146-152): a string chunk is kept, a chunk with a `content` attribute
contributes that attribute's raw value (not stringified), anything else is
stringified; a chunk whose attribute access raises aborts the loop. -/
def classifyChunk : PyVal → Option PyVal
  | .str s => some (.str s)
  | .obj c _ => some c
  | .badAttr _ => none
  | v => some (.str v.pyStr)

/-- The whole chunk loop: left to right, the first raising chunk aborts. -/
def classifyAll : List PyVal → Option (List PyVal)
  | [] => some []
  | ch :: rest =>
      match classifyChunk ch with
      | some v => (classifyAll rest).map (v :: ·)
      | none => none

/-- Python `"".join(chunks)`: succeeds with the concatenation when every
element is a string, raises `TypeError` otherwise. -/
def joinStrs : List PyVal → Option String
  | [] => some ""
  | .str s :: rest => (joinStrs rest).map (s ++ ·)
  | _ => none

/-- The body of the `try` block of `extract_response_content`
(`src/main.py` lines 139-155); `none` is a raised exception.  The branches
are checked in source order: string, `content` attribute (whose `hasattr`
check propagates a raising attribute), iterable, else stringify. -/
def extractExc : PyVal → Option String
  | .str s => some s
  | .obj c _ => some c.pyStr
  | .badAttr _ => none
  | .iterable chunks _ =>
      match classifyAll chunks with
      | some vs => joinStrs vs
      | none => none
  | .raisingIter _ _ => none
  | .other r => some r

/-- Function `extract_response_content` of `src/main.py` (lines 136-157):
the `try` body's value, with any exception replaced by the fixed
placeholder. -/
def extract_response_content (v : PyVal) : String :=
  (extractExc v).getD "[Error: Could not parse response]"

/-- Outcome of one `g4f.ChatCompletion.create` call: a returned value or a
raised exception with its message text. -/
inductive PRes where
  | ok (v : PyVal) : PRes
  | exn (e : String) : PRes

/-- The provider collaborator, abstracted per call site: the outcome of the
`stream=True` call and the outcome of the `stream=False` call (used both as
the fallback after a streaming fault and as the call made when streaming is
disabled by the toggle). -/
structure Provider where
  streamCall : PRes
  plainCall : PRes

/-- One iteration of the streaming loop of `stream_response` (lines
181-187): the text added to `assistant_msg_content` by a chunk, or `none`
when the chunk raises (`+=` of a non-string `content` attribute raises
`TypeError`; a raising attribute access propagates out of `hasattr`). -/
def chunkDelta : PyVal → Option String
  | .str s => some s
  | .obj (.str s) _ => some s
  | .obj _ _ => none
  | .badAttr _ => none
  | v => some v.pyStr

/-- The streaming loop over a list of delivered chunks: accumulates text
left to right and reports whether an exception interrupted the loop (the
text accumulated before the exception is kept in `assistant_msg_content`). -/
def accumChunks (acc : String) : List PyVal → String × Bool
  | [] => (acc, false)
  | ch :: rest =>
      match chunkDelta ch with
      | some d => accumChunks (acc ++ d) rest
      | none => (acc, true)

/-- Effect of `for chunk in response` over a streaming response value:
iterating a string yields its characters (each a string chunk, so the whole
string is accumulated); an iterable yields its chunks; a raising iterable
yields its chunks and then raises; any non-iterable value raises
`TypeError` at the `for` statement with nothing accumulated. -/
def streamAccum (acc : String) : PyVal → String × Bool
  | .str s => (acc ++ s, false)
  | .iterable chunks _ => accumChunks acc chunks
  | .raisingIter chunks _ => ((accumChunks acc chunks).1, true)
  | _ => (acc, true)

/-- The error marker synthesized by the outer `except` handler of
`stream_response` (line 217):
`f"[Error: Cannot get response from '{model}'. {str(e)}]"`. -/
def errText (model e : String) : String :=
  "[Error: Cannot get response from '" ++ model ++ "'. " ++ e ++ "]"

/-- Result of one send: the active conversation afterwards, the snapshots of
it recorded at each `save_conversations` call (the source saves the full
conversation list; the active conversation is the only one mutated, so the
snapshots record its state), and the `stream` flag of each provider call
made, in order. -/
structure SendOutcome where
  conv : Conversation
  saves : List Conversation
  calls : List Bool

/-- Shared tail of every path through `stream_response` (lines 212-222):
append the assistant `Message` holding the final text and persist. -/
def finalizeTurn (c1 : Conversation) (content : String) (calls : List Bool) : SendOutcome :=
  let c2 : Conversation := { c1 with messages := c1.messages ++ [⟨.str "assistant", .str content⟩] }
  ⟨c2, [c1, c2], calls⟩

/-- The non-streaming provider call (lines 193-200 as the fallback after a
streaming fault, lines 203-210 when streaming is disabled): on success the
returned value is normalized with `extract_response_content`, replacing any
partial accumulation; on a raise, control reaches the outer handler, which
appends the error marker to the accumulated text `acc`. -/
def plainPath (model : String) (prov : Provider) (c1 : Conversation) (acc : String)
    (callsSoFar : List Bool) : SendOutcome :=
  match prov.plainCall with
  | .ok v2 => finalizeTurn c1 (extract_response_content v2) (callsSoFar ++ [false])
  | .exn e2 => finalizeTurn c1 (acc ++ errText model e2) (callsSoFar ++ [false])

/-- Function `stream_response` of `src/main.py` (lines 159-222): append the
user `Message` and persist; then, if streaming is enabled, call the provider
with `stream=True` and accumulate chunks, falling back to one non-streaming
call on any fault (at the call or during iteration); if streaming is
disabled, make the non-streaming call directly; finally append the assistant
`Message` (normal text or error marker) and persist. -/
def stream_response (toggle : Bool) (model : String) (prov : Provider)
    (c : Conversation) (prompt : String) : SendOutcome :=
  let c1 : Conversation := { c with messages := c.messages ++ [⟨.str "user", .str prompt⟩] }
  if toggle then
    match prov.streamCall with
    | .ok v =>
        let p := streamAccum "" v
        if p.2 then plainPath model prov c1 p.1 [true]
        else finalizeTurn c1 p.1 [true]
    | .exn _ => plainPath model prov c1 "" [true]
  else
    plainPath model prov c1 "" []

/-- Python `str.strip()`: remove leading and trailing whitespace.  Defined
over the character list so that it is kernel-executable (`String.trim` of
core Lean computes the same value but through `Substring` helpers that do
not reduce). -/
def pyStrip (s : String) : String :=
  ⟨((s.data.dropWhile Char.isWhitespace).reverse.dropWhile
      Char.isWhitespace).reverse⟩

/-- Handler `on_send_click` of `src/main.py` (lines 224-236): strip the
input; do nothing when the result is empty; on the conversation's first
message set the title to `text[:30] + "..." if len(text) > 30 else text`;
then run `stream_response` on the stripped text. -/
def on_send_click (toggle : Bool) (model : String) (prov : Provider)
    (input : String) (c : Conversation) : SendOutcome :=
  let text := pyStrip input
  if text = "" then ⟨c, [], []⟩
  else
    let c1 : Conversation :=
      if c.messages.isEmpty then
        { c with title := .str (if text.length > 30 then text.take 30 ++ "..." else text) }
      else c
    stream_response toggle model prov c1 text

mutual

/-- Follows the spec's words for the C3 comparison, not the source: the
spec's rule 3 says each chunk of an iterable is classified recursively by
the same three rules (string, content field, iterable) and the results
concatenated in arrival order, so a nested iterable chunk is itself
flattened. -/
def normalizeSpecRec : PyVal → String
  | .str s => s
  | .obj c _ => c.pyStr
  | .iterable chunks _ => normalizeSpecRecList chunks
  | v => v.pyStr

/-- List companion of `normalizeSpecRec`: concatenation in arrival order. -/
def normalizeSpecRecList : List PyVal → String
  | [] => ""
  | ch :: rest => normalizeSpecRec ch ++ normalizeSpecRecList rest

end

/-- Whether a stream chunk is handled by `extract_response_content` without
raising and with a string contribution: a string, an object whose `content`
attribute is a string, or any shape that falls to the stringify branch (an
object with a non-string `content` makes the final `join` raise, and a
raising attribute access raises at `hasattr`). -/
def chunkOk : PyVal → Bool
  | .obj (.str _) _ => true
  | .obj _ _ => false
  | .badAttr _ => false
  | _ => true

/-- The text a well-behaved chunk contributes: itself for a string, its
`content` attribute's text for a content-bearing object, its `str()` text
otherwise. -/
def chunkText : PyVal → String
  | .str s => s
  | .obj c _ => c.pyStr
  | v => v.pyStr

/-- Whether a JSON value is a JSON string. -/
def JVal.isStr : JVal → Bool
  | .str _ => true
  | _ => false

/-- Whether both fields of a `Message` are strings. -/
def Message.strFields (m : Message) : Bool :=
  m.role.isStr && m.content.isStr

/-- Whether the `id`, `title` and all message fields of a `Conversation` are
strings, as they are for every conversation the application itself builds. -/
def Conversation.strFields (c : Conversation) : Bool :=
  c.id.isStr && c.title.isStr && c.messages.all Message.strFields

/-! ## Theorems -/

/-- C9.  For every string `s`, `extract_response_content s = s`: normalizing
an already-plain-text value returns it unchanged, with no trimming,
re-encoding, or wrapping. -/
theorem extract_plain_text_id (s : String) :
    extract_response_content (.str s) = s := rfl

/-- C4.  For every input value, including iterables that raise an exception
mid-iteration and objects whose attribute access raises,
`extract_response_content` never raises: it is a total function returning
either the extracted text (the value of the exception-free extraction
`extractExc`) or the fixed placeholder string
`[Error: Could not parse response]`; in particular both raising shapes get
the placeholder. -/
theorem extract_never_raises (v : PyVal) :
    ((∃ s, extractExc v = some s ∧ extract_response_content v = s) ∨
      extract_response_content v = "[Error: Could not parse response]") ∧
    (∀ chunks rep, extract_response_content (.raisingIter chunks rep) =
      "[Error: Could not parse response]") ∧
    (∀ rep, extract_response_content (.badAttr rep) =
      "[Error: Could not parse response]") := by
  refine ⟨?_, fun chunks rep => rfl, fun rep => rfl⟩
  cases h : extractExc v with
  | some s => exact Or.inl ⟨s, rfl, by simp [extract_response_content, h]⟩
  | none => exact Or.inr (by simp [extract_response_content, h])

/-- C3, counterexample.  The chunk loop of `extract_response_content` is not
recursive: a chunk that is itself an iterable of chunks is stringified
directly (yielding its `str()` text, here `<generator>`), whereas the
spec's recursive reading (`normalizeSpecRec`) would flatten it to `a`. -/
theorem extract_nested_iterable_stringified :
    extract_response_content
        (.iterable [.iterable [.str "a"] "<generator>"] "<resp>") = "<generator>" ∧
    normalizeSpecRec
        (.iterable [.iterable [.str "a"] "<generator>"] "<resp>") = "a" := by
  constructor
  · decide
  · simp [normalizeSpecRec, normalizeSpecRecList]

/-- C3, amended.  For an iterable response whose chunks each avoid the two
raising shapes (a non-string `content` attribute, which makes the final
join raise, and a raising attribute access), `extract_response_content`
returns the concatenation, in arrival order, of each chunk's text by the
non-recursive chunk rules: a string chunk is itself, a content-bearing
chunk contributes its `content` attribute, and any other chunk — including
a nested iterable — is stringified directly. -/
theorem extract_iterable_concat (chunks : List PyVal) (rep : String)
    (h : chunks.all chunkOk = true) :
    extract_response_content (.iterable chunks rep) =
      (chunks.map chunkText).foldr (· ++ ·) "" := by
  have main : ∀ l : List PyVal, l.all chunkOk = true →
      ∃ vs, classifyAll l = some vs ∧
        joinStrs vs = some ((l.map chunkText).foldr (· ++ ·) "") := by
    intro l hl
    induction l with
    | nil => exact ⟨[], rfl, rfl⟩
    | cons ch rest ih =>
        rw [List.all_cons, Bool.and_eq_true] at hl
        obtain ⟨vs, hcls, hjoin⟩ := ih hl.2
        cases ch with
        | str s =>
            exact ⟨.str s :: vs, by simp [classifyAll, classifyChunk, hcls],
              by simp [joinStrs, hjoin, chunkText]⟩
        | obj c r =>
            cases c with
            | str s =>
                exact ⟨.str s :: vs, by simp [classifyAll, classifyChunk, hcls],
                  by simp [joinStrs, hjoin, chunkText, PyVal.pyStr]⟩
            | obj c2 r2 => simp [chunkOk] at hl
            | iterable cs2 r2 => simp [chunkOk] at hl
            | raisingIter cs2 r2 => simp [chunkOk] at hl
            | badAttr r2 => simp [chunkOk] at hl
            | other r2 => simp [chunkOk] at hl
        | badAttr r => simp [chunkOk] at hl
        | iterable cs r =>
            exact ⟨.str (PyVal.iterable cs r).pyStr :: vs,
              by simp [classifyAll, classifyChunk, hcls],
              by simp [joinStrs, hjoin, chunkText]⟩
        | raisingIter cs r =>
            exact ⟨.str (PyVal.raisingIter cs r).pyStr :: vs,
              by simp [classifyAll, classifyChunk, hcls],
              by simp [joinStrs, hjoin, chunkText]⟩
        | other r =>
            exact ⟨.str (PyVal.other r).pyStr :: vs,
              by simp [classifyAll, classifyChunk, hcls],
              by simp [joinStrs, hjoin, chunkText]⟩
  obtain ⟨vs, hcls, hjoin⟩ := main chunks h
  simp [extract_response_content, extractExc, hcls, hjoin]

/-- Witness for the amended C3 theorem at a concrete chunk list containing a
string, a content-bearing object, and a stringified nested iterable. -/
theorem extract_iterable_concat_witness :
    [PyVal.str "a", .obj (.str "b") "o", .iterable [.str "x"] "<gen>"].all chunkOk = true ∧
    extract_response_content
        (.iterable [PyVal.str "a", .obj (.str "b") "o", .iterable [.str "x"] "<gen>"] "r") =
      ([PyVal.str "a", .obj (.str "b") "o", .iterable [.str "x"] "<gen>"].map chunkText).foldr
        (· ++ ·) "" :=
  ⟨by decide, extract_iterable_concat
    [PyVal.str "a", .obj (.str "b") "o", .iterable [.str "x"] "<gen>"] "r" (by decide)⟩

/-- Decoding inverts encoding for one message. -/
theorem decodeMessage_encodeMessage (m : Message) :
    decodeMessage (encodeMessage m) = some m := rfl

/-- Decoding inverts encoding for a message list. -/
theorem decodeMessages_encode (ms : List Message) :
    decodeMessages (ms.map encodeMessage) = some ms := by
  induction ms with
  | nil => rfl
  | cons m rest ih => simp [decodeMessages, decodeMessage_encodeMessage, ih]

/-- Decoding inverts encoding for one conversation. -/
theorem decodeConversation_encode (c : Conversation) :
    decodeConversation (encodeConversation c) = some c := by
  simp [decodeConversation, encodeConversation, getJ, decodeMessages_encode]

/-- Decoding inverts encoding for a conversation list. -/
theorem decodeConversationList_encode (cs : List Conversation) :
    decodeConversationList (cs.map encodeConversation) = some cs := by
  induction cs with
  | nil => rfl
  | cons c rest ih => simp [decodeConversationList, decodeConversation_encode, ih]

/-- C1.  For every sequence of conversations whose `id`, `title`, and message
`role`/`content` fields are arbitrary unicode strings (empty strings and
embedded newlines included), loading the document written by
`save_conversations` returns the same sequence field-for-field, with no
fault reported. -/
theorem load_save_roundtrip (cs : List Conversation)
    (_h : cs.all Conversation.strFields = true) :
    load_conversations (.parsed (save_conversations cs)) = (cs, false) := by
  simp [load_conversations, save_conversations, decodeConversations,
    decodeConversationList_encode]

/-- Witness for C1 at a concrete list exercising unicode text, embedded
newlines, and empty strings. -/
theorem load_save_roundtrip_witness :
    [(⟨.str "id-1", .str "héllo\nwörld", [⟨.str "user", .str ""⟩,
        ⟨.str "assistant", .str "línea\nβ. 2"⟩]⟩ : Conversation),
      ⟨.str "id-2", .str "", []⟩].all Conversation.strFields = true ∧
    load_conversations (.parsed (save_conversations
      [⟨.str "id-1", .str "héllo\nwörld", [⟨.str "user", .str ""⟩,
        ⟨.str "assistant", .str "línea\nβ. 2"⟩]⟩,
        ⟨.str "id-2", .str "", []⟩])) =
      ([⟨.str "id-1", .str "héllo\nwörld", [⟨.str "user", .str ""⟩,
        ⟨.str "assistant", .str "línea\nβ. 2"⟩]⟩,
        ⟨.str "id-2", .str "", []⟩], false) :=
  ⟨by decide, load_save_roundtrip
    [⟨.str "id-1", .str "héllo\nwörld", [⟨.str "user", .str ""⟩,
      ⟨.str "assistant", .str "línea\nβ. 2"⟩]⟩,
      ⟨.str "id-2", .str "", []⟩] (by decide)⟩

/-- C7, counterexample.  On a missing data file `load_conversations` returns
the empty sequence but does not report a fault (the reported flag is
`false`): the claim's "returns the empty sequence and reports the fault"
fails for the missing-file case, which returns before the `try` block and
prints nothing. -/
theorem load_missing_not_reported :
    load_conversations FileState.missing = ([], false) ∧
    ¬ (load_conversations FileState.missing).2 = true :=
  ⟨rfl, by decide⟩

/-- C7, amended.  `load_conversations` never raises: a missing data file
yields the empty sequence silently; an I/O fault while reading, a JSON parse
failure, or any exception while rebuilding the records yields the empty
sequence with the fault reported; and whenever startup sees an empty result
it creates exactly one fresh `Conversation` with an empty message sequence
and the placeholder title `New Chat`. -/
theorem load_total_and_startup_default :
    load_conversations FileState.missing = ([], false) ∧
    load_conversations FileState.ioError = ([], true) ∧
    load_conversations FileState.unparseable = ([], true) ∧
    (∀ j, decodeConversations j = none →
      load_conversations (.parsed j) = ([], true)) ∧
    (∀ fs freshId, (load_conversations fs).1 = [] →
      startupConversations fs freshId = [⟨.str freshId, .str "New Chat", []⟩]) := by
  refine ⟨rfl, rfl, rfl, fun j hj => by simp [load_conversations, hj],
    fun fs freshId h => ?_⟩
  simp [startupConversations, h]

/-- Witness for the amended C7 theorem: a non-iterable JSON document (the
number 3) is reported and yields the empty sequence, and startup on a
missing file creates the single default conversation. -/
theorem load_total_and_startup_default_witness :
    load_conversations (.parsed (.num 3)) = ([], true) ∧
    startupConversations FileState.missing "u-1" =
      [⟨.str "u-1", .str "New Chat", []⟩] :=
  ⟨load_total_and_startup_default.2.2.2.1 (.num 3) rfl,
    load_total_and_startup_default.2.2.2.2 FileState.missing "u-1" rfl⟩

/-- A message list containing one raising element decodes to `none`. -/
theorem decodeMessages_append_bad (ms₁ ms₂ : List JVal) (m : JVal)
    (h : decodeMessage m = none) :
    decodeMessages (ms₁ ++ m :: ms₂) = none := by
  induction ms₁ with
  | nil => simp [decodeMessages, h]
  | cons a t ih =>
      simp only [List.cons_append, decodeMessages]
      cases decodeMessage a <;> simp [ih]

/-- A conversation list containing one raising element decodes to `none`. -/
theorem decodeConversationList_append_bad (cs₁ cs₂ : List JVal) (c : JVal)
    (h : decodeConversation c = none) :
    decodeConversationList (cs₁ ++ c :: cs₂) = none := by
  induction cs₁ with
  | nil => simp [decodeConversationList, h]
  | cons a t ih =>
      simp only [List.cons_append, decodeConversationList]
      cases decodeConversation a <;> simp [ih]

/-- Decoding distributes over append when both halves succeed. -/
theorem decodeConversationList_append (l₁ l₂ : List JVal)
    (r₁ r₂ : List Conversation)
    (h₁ : decodeConversationList l₁ = some r₁)
    (h₂ : decodeConversationList l₂ = some r₂) :
    decodeConversationList (l₁ ++ l₂) = some (r₁ ++ r₂) := by
  induction l₁ generalizing r₁ with
  | nil =>
      simp [decodeConversationList] at h₁
      subst h₁
      simpa using h₂
  | cons a t ih =>
      simp only [decodeConversationList] at h₁
      cases ha : decodeConversation a with
      | none => rw [ha] at h₁; exact absurd h₁ (by simp)
      | some conv =>
          rw [ha] at h₁
          cases ht : decodeConversationList t with
          | none => rw [ht] at h₁; exact absurd h₁ (by simp)
          | some r =>
              rw [ht] at h₁
              obtain rfl : conv :: r = r₁ := by
                simpa using h₁
              simp [List.cons_append, decodeConversationList, ha, ih r ht]


/-- C10.  A single malformed message object (missing `role`, missing
`content`, or an extra key, so that `Message(**m)` raises) anywhere in the
parsed document makes `load_conversations` discard every conversation and
return the empty sequence with the fault reported — no per-conversation
salvage — whereas a conversation-level record missing the `id`, `title`,
and `messages` keys is individually defaulted (`id`/`title` become `null`,
`messages` becomes empty) without affecting the records around it. -/
theorem bad_message_discards_all
    (pre post ms₁ ms₂ : List JVal) (cf mf : List (String × JVal))
    (pre₂ post₂ : List JVal) (cf₂ : List (String × JVal))
    (cs₁ cs₂ : List Conversation)
    (hbad : msgKeysOk mf = false)
    (hmsgs : getJ cf "messages" = some (.arr (ms₁ ++ JVal.obj mf :: ms₂))) :
    load_conversations (.parsed (.arr (pre ++ JVal.obj cf :: post))) = ([], true) ∧
    (getJ cf₂ "id" = none → getJ cf₂ "title" = none →
      getJ cf₂ "messages" = none →
      decodeConversationList pre₂ = some cs₁ →
      decodeConversationList post₂ = some cs₂ →
      load_conversations (.parsed (.arr (pre₂ ++ JVal.obj cf₂ :: post₂))) =
        (cs₁ ++ ⟨.null, .null, []⟩ :: cs₂, false)) := by
  constructor
  · have hmsg : decodeMessage (JVal.obj mf) = none := by
      simp [decodeMessage, hbad]
    have hconv : decodeConversation (JVal.obj cf) = none := by
      simp [decodeConversation, hmsgs, decodeMessages_append_bad ms₁ ms₂ _ hmsg]
    simp [load_conversations, decodeConversations,
      decodeConversationList_append_bad pre post _ hconv]
  · intro hid htitle hmsgs₂ hpre hpost
    have hdef : decodeConversation (JVal.obj cf₂) =
        some ⟨.null, .null, []⟩ := by
      simp [decodeConversation, hid, htitle, hmsgs₂, decodeMessages]
    have hmid : decodeConversationList (JVal.obj cf₂ :: post₂) =
        some (Conversation.mk .null .null [] :: cs₂) := by
      simp [decodeConversationList, hdef, hpost]
    have := decodeConversationList_append pre₂ (JVal.obj cf₂ :: post₂)
      cs₁ (Conversation.mk .null .null [] :: cs₂) hpre hmid
    simp [load_conversations, decodeConversations, this]

/-- Witness for C10: a record whose single message lacks `content` discards
the whole load, and a record with only an unrelated key is defaulted. -/
theorem bad_message_discards_all_witness :
    load_conversations (.parsed (.arr
      [JVal.obj [("messages", .arr [.obj [("role", .str "user")]])]])) = ([], true) ∧
    load_conversations (.parsed (.arr [JVal.obj [("junk", .str "x")]])) =
      ([⟨.null, .null, []⟩], false) := by
  have h := bad_message_discards_all [] [] [] []
    [("messages", .arr [.obj [("role", .str "user")]])] [("role", .str "user")]
    [] [] [("junk", .str "x")] [] [] rfl rfl
  exact ⟨h.1, h.2 rfl rfl rfl rfl rfl⟩

/-- C8, counterexample.  During `save_conversations` the data file passes
through the truncated state `""`: starting from the previously valid
document `[]` and writing the new document `[1]`, a reader interrupting the
write can observe a state that is neither the old nor the new document, so
the write is not atomic from the caller's perspective. -/
theorem save_interruption_corrupts :
    ¬ (∀ s ∈ saveWriteTrace "[]" "[1]", s = "[]" ∨ s = "[1]") := by
  decide

/-- C8, amended.  `save_conversations` writes in place:
`open(DATA_FILE, "w")` truncates the file before `json.dump` writes the new
document, so the file begins at the old content, passes through the empty
state, and only the uninterrupted final state is the complete new document;
whenever the old and new documents are both non-empty, an interruption can
expose a state that is neither. -/
theorem save_write_not_atomic (old doc : String) :
    (saveWriteTrace old doc).head? = some old ∧
    "" ∈ saveWriteTrace old doc ∧
    (saveWriteTrace old doc).getLast? = some doc ∧
    (old ≠ "" → doc ≠ "" →
      ∃ s ∈ saveWriteTrace old doc, s ≠ old ∧ s ≠ doc) := by
  refine ⟨rfl, by simp [saveWriteTrace], rfl, fun h1 h2 => ?_⟩
  exact ⟨"", by simp [saveWriteTrace], Ne.symm h1, Ne.symm h2⟩

/-- Witness for the amended C8 theorem at concrete old and new documents. -/
theorem save_write_not_atomic_witness :
    ∃ s ∈ saveWriteTrace "[]" "[1]", s ≠ "[]" ∧ s ≠ "[1]" :=
  (save_write_not_atomic "[]" "[1]").2.2.2 (by decide) (by decide)


/-- The title of the active conversation is never changed by
`stream_response`: every path only appends messages. -/
theorem stream_response_conv_title (t : Bool) (m : String) (p : Provider)
    (c : Conversation) (x : String) :
    (stream_response t m p c x).conv.title = c.title := by
  cases t with
  | false =>
      cases hp : p.plainCall <;>
        simp [stream_response, plainPath, finalizeTurn, hp]
  | true =>
      cases hs : p.streamCall with
      | exn e =>
          cases hp : p.plainCall <;>
            simp [stream_response, plainPath, finalizeTurn, hs, hp]
      | ok v =>
          cases hp : p.plainCall <;>
            cases h2 : (streamAccum "" v).2 <;>
              simp [stream_response, plainPath, finalizeTurn, hs, hp, h2]

/-- C2.  When every provider call raises (the streaming call with message
`e1`, the non-streaming call with message `e2`), one send appends exactly
two messages to the active conversation — first the user message holding
the prompt, then a single assistant message whose content is the error
marker `[Error: Cannot get response from '<model>'. <detail>]` — the
message count grows by exactly 2, and the conversation is persisted after
each of the two appends. -/
theorem error_turn_appends_two (toggle : Bool) (model prompt e1 e2 : String)
    (c : Conversation) :
    (stream_response toggle model ⟨.exn e1, .exn e2⟩ c prompt).conv.messages =
      c.messages ++ [⟨.str "user", .str prompt⟩,
        ⟨.str "assistant", .str (errText model e2)⟩] ∧
    (stream_response toggle model ⟨.exn e1, .exn e2⟩ c prompt).conv.messages.length =
      c.messages.length + 2 ∧
    (stream_response toggle model ⟨.exn e1, .exn e2⟩ c prompt).saves =
      [{ c with messages := c.messages ++ [⟨.str "user", .str prompt⟩] },
        { c with messages := c.messages ++ [⟨.str "user", .str prompt⟩,
          ⟨.str "assistant", .str (errText model e2)⟩] }] := by
  cases toggle <;>
    simp [stream_response, plainPath, finalizeTurn, String.empty_append]

/-- C5.  A fault during the streaming provider call (raised at the call or
during chunk iteration) triggers exactly one retry with streaming disabled,
whose single returned value is normalized with `extract_response_content`;
a fault during that retry is not retried again but produces the
error-annotated assistant message; and when streaming is disabled by
configuration, the single non-streaming call is made, normalized directly
on success and error-annotated on a fault, with no retry.  The `calls`
trace records the `stream` flag of each provider call made, in order. -/
theorem streaming_fault_single_retry (model prompt e1 e2 rep : String)
    (c : Conversation) (v2 : PyVal) (chunks : List PyVal) (sc : PRes) :
    ((stream_response true model ⟨.exn e1, .ok v2⟩ c prompt).calls =
        [true, false] ∧
      (stream_response true model ⟨.exn e1, .ok v2⟩ c prompt).conv.messages =
        c.messages ++ [⟨.str "user", .str prompt⟩,
          ⟨.str "assistant", .str (extract_response_content v2)⟩]) ∧
    ((stream_response true model ⟨.exn e1, .exn e2⟩ c prompt).calls =
        [true, false] ∧
      (stream_response true model ⟨.exn e1, .exn e2⟩ c prompt).conv.messages =
        c.messages ++ [⟨.str "user", .str prompt⟩,
          ⟨.str "assistant", .str (errText model e2)⟩]) ∧
    ((stream_response true model ⟨.ok (.raisingIter chunks rep), .ok v2⟩
        c prompt).calls = [true, false] ∧
      (stream_response true model ⟨.ok (.raisingIter chunks rep), .ok v2⟩
        c prompt).conv.messages =
        c.messages ++ [⟨.str "user", .str prompt⟩,
          ⟨.str "assistant", .str (extract_response_content v2)⟩]) ∧
    ((stream_response false model ⟨sc, .exn e2⟩ c prompt).calls = [false] ∧
      (stream_response false model ⟨sc, .exn e2⟩ c prompt).conv.messages =
        c.messages ++ [⟨.str "user", .str prompt⟩,
          ⟨.str "assistant", .str (errText model e2)⟩]) ∧
    ((stream_response false model ⟨sc, .ok v2⟩ c prompt).calls = [false] ∧
      (stream_response false model ⟨sc, .ok v2⟩ c prompt).conv.messages =
        c.messages ++ [⟨.str "user", .str prompt⟩,
          ⟨.str "assistant", .str (extract_response_content v2)⟩]) := by
  refine ⟨⟨?_, ?_⟩, ⟨?_, ?_⟩, ⟨?_, ?_⟩, ⟨?_, ?_⟩, ⟨?_, ?_⟩⟩ <;>
    simp [stream_response, plainPath, finalizeTurn, streamAccum,
      String.empty_append]

/-- C6.  On the first message of a conversation (its message list is empty),
a trimmed prompt of length at most 30 becomes the title verbatim, and a
longer one becomes its first 30 characters followed by `...`; on any later
message (the message list is non-empty) the title is left unchanged. -/
theorem title_derived_once (toggle : Bool) (model input : String)
    (prov : Provider) (c : Conversation) :
    (c.messages = [] → (pyStrip input) ≠ "" → (pyStrip input).length ≤ 30 →
      (on_send_click toggle model prov input c).conv.title = .str (pyStrip input)) ∧
    (c.messages = [] → (pyStrip input) ≠ "" → 30 < (pyStrip input).length →
      (on_send_click toggle model prov input c).conv.title =
        .str ((pyStrip input).take 30 ++ "...")) ∧
    (c.messages ≠ [] →
      (on_send_click toggle model prov input c).conv.title = c.title) := by
  refine ⟨fun hm hne hlen => ?_, fun hm hne hlen => ?_, fun hm => ?_⟩
  · simp [on_send_click, hne, hm, stream_response_conv_title,
      Nat.not_lt.mpr hlen]
  · simp [on_send_click, hne, hm, stream_response_conv_title, hlen]
  · by_cases he : (pyStrip input) = ""
    · simp [on_send_click, he]
    · have hie : c.messages.isEmpty = false := by
        cases hcm : c.messages with
        | nil => exact absurd hcm hm
        | cons a t => rfl
      simp [on_send_click, he, hie, stream_response_conv_title]

/-- Witness for C6: sending `"  hello  "` as the first message of a fresh
conversation sets the title to the trimmed prompt `hello`. -/
theorem title_derived_once_witness :
    (on_send_click true "m" ⟨.exn "a", .exn "b"⟩ "  hello  "
      ⟨.null, .str "New Chat", []⟩).conv.title = .str (pyStrip "  hello  ") :=
  (title_derived_once true "m" "  hello  " ⟨.exn "a", .exn "b"⟩
    ⟨.null, .str "New Chat", []⟩).1 rfl (by decide) (by decide)


end ChatApp
